import Mathlib

/-!
Shallow embedding of `src/rtsp-dash-streamer.cpp` (class `RTSPDashStreamer`).

The GStreamer engine is external: element creation, pad linking and
`gst_element_get_state` outcomes are supplied by explicit environment
records, and GLib main-loop timers (`g_timeout_add_seconds` /
`g_source_remove`) are modelled as an explicit list of pending timer
sources with fresh increasing ids.  Bus messages, pad-added signals and
timer firings are the events of a step function, matching the
single-threaded GLib main-loop dispatch.
-/

namespace RtspDash

/-- The two selector sink pads the streamer stores on the `input-selector`
via `g_object_set_data` under the keys "dummy-pad" and "rtsp-pad". -/
inductive SPad
  | dummy
  | rtsp
deriving DecidableEq

/-- Kind of a pending GLib timeout source: the 5 s reconnect timer
(`schedule_rtsp_reconnect`) or the 1 s grace-delay switch
(`g_timeout_add_seconds (1, switch_to_rtsp_delayed)`). -/
inductive TimerKind
  | reconnect
  | graceSwitch
deriving DecidableEq

/-- A pending GLib timeout source: its source id (as returned by
`g_timeout_add_seconds`), which callback it runs, and its interval in
seconds. -/
structure Timer where
  id : Nat
  kind : TimerKind
  interval : Nat
deriving DecidableEq

/-- GStreamer element states, ordered as the `GstState` enum. -/
inductive GstState
  | voidPending
  | stateNull
  | ready
  | paused
  | playing
deriving DecidableEq

/-- Numeric value of the `GstState` enum, used for the `<` comparison in
`handle_bus_message`. -/
def GstState.toNat : GstState → Nat
  | .voidPending => 0
  | .stateNull => 1
  | .ready => 2
  | .paused => 3
  | .playing => 4

/-- Identity of the GStreamer object a bus message originates from
(`GST_MESSAGE_SRC`).  The named decode-chain elements are the ones
`create_rtsp_decode_chain` builds. -/
inductive MsgSrc
  | rtspSrc
  | dummySrc
  | selectorElem
  | teeElem
  | rtspDepay
  | rtspParse
  | rtspDecode
  | rtspConvert
  | rtspCapsElem
  | profileElem
  | otherElem
deriving DecidableEq

/-- Whether a message source belongs to the live-source lineage as the
spec defines it: the LiveSource node or any node of its dynamically
constructed decode sub-chain. -/
def liveLineage : MsgSrc → Bool
  | .rtspSrc => true
  | .rtspDepay => true
  | .rtspParse => true
  | .rtspDecode => true
  | .rtspConvert => true
  | .rtspCapsElem => true
  | _ => false

/-- Messages on the pipeline bus handled by `handle_bus_message`. -/
inductive BusMsg
  | error (src : MsgSrc)
  | eos
  | stateChanged (src : MsgSrc) (oldS newS : GstState)
deriving DecidableEq

/-- Runtime state of a `RTSPDashStreamer` object: the fields of the C++
class that the orchestration logic reads and writes, plus the pending
GLib timeout sources of the main loop. -/
structure Streamer where
  rtsp_uri : String
  output_path : String
  /-- the `input-selector` element's "active-pad" property. -/
  activePad : Option SPad
  /-- `g_object_get_data (input_selector, "dummy-pad")`. -/
  dummyPadStored : Option SPad
  /-- `g_object_get_data (input_selector, "rtsp-pad")`. -/
  rtspPadStored : Option SPad
  is_rtsp_connected : Bool
  reconnect_timeout_id : Nat
  /-- pending GLib timeout sources of the main loop. -/
  pendingTimers : List Timer
  /-- next fresh GLib source id (source ids are positive). -/
  nextTimerId : Nat
  /-- how many times `reconnect_rtsp_source` has reset `rtsp_src` to
  NULL and back to PLAYING. -/
  rtspSrcResetCount : Nat
  bus_watch_id : Nat
  hasPipeline : Bool
  hasBus : Bool
  hasLoop : Bool
  /-- `g_main_loop_quit` has been requested (`stop()`). -/
  stopped : Bool
deriving DecidableEq

/-- Timers of one kind among a pending-timer list. -/
def kindTimers (k : TimerKind) (l : List Timer) : List Timer :=
  l.filter (fun t => t.kind == k)

/-- Pending reconnect timers. -/
def reconTimers (l : List Timer) : List Timer :=
  kindTimers .reconnect l

/-- Pending grace-delay switch-to-live timers. -/
def graceTimers (l : List Timer) : List Timer :=
  kindTimers .graceSwitch l

/-- `g_timeout_add_seconds (interval, cb, this)`: registers a fresh
timeout source and returns the new id implicitly as `s.nextTimerId`. -/
def add_timeout (interval : Nat) (k : TimerKind) (s : Streamer) : Streamer :=
  { s with
      pendingTimers := s.pendingTimers ++ [⟨s.nextTimerId, k, interval⟩],
      nextTimerId := s.nextTimerId + 1 }

/-- `g_source_remove (id)`. -/
def remove_source (id : Nat) (s : Streamer) : Streamer :=
  { s with pendingTimers := s.pendingTimers.filter (fun t => t.id != id) }

/-- Look up a pending timeout source by id. -/
def findTimer (s : Streamer) (id : Nat) : Option Timer :=
  s.pendingTimers.find? (fun t => t.id == id)

/-- `switch_to_dummy_source`: reads the stored "dummy-pad"; if present,
sets the selector's "active-pad" property to it; otherwise does
nothing. -/
def switch_to_dummy_source (s : Streamer) : Streamer :=
  match s.dummyPadStored with
  | some p => { s with activePad := some p }
  | none => s

/-- `switch_to_rtsp_source`: reads the stored "rtsp-pad"; if present,
sets the selector's "active-pad" property to it; otherwise does
nothing. -/
def switch_to_rtsp_source (s : Streamer) : Streamer :=
  match s.rtspPadStored with
  | some p => { s with activePad := some p }
  | none => s

/-- `schedule_rtsp_reconnect`: removes a pending reconnect source if one
is recorded, then registers a new 5-second timeout running
`reconnect_rtsp_source` and stores its id. -/
def schedule_rtsp_reconnect (s : Streamer) : Streamer :=
  let s1 := if s.reconnect_timeout_id > 0 then remove_source s.reconnect_timeout_id s else s
  let s2 := add_timeout 5 .reconnect s1
  { s2 with reconnect_timeout_id := s1.nextTimerId }

/-- Body of the `reconnect_rtsp_source` callback: resets `rtsp_src` to
NULL then PLAYING and clears the stored timeout id; it returns FALSE so
the source is removed by the caller (`fire_timer`). -/
def reconnect_rtsp_source (s : Streamer) : Streamer :=
  { s with
      rtspSrcResetCount := s.rtspSrcResetCount + 1,
      reconnect_timeout_id := 0 }

/-- `stop()`: quits the main loop when one exists. -/
def stop (s : Streamer) : Streamer :=
  if s.hasLoop then { s with stopped := true } else s

/-- `handle_bus_message`: dispatch on the message type, mirroring the
`switch` in the C++ handler. -/
def handle_bus_message (s : Streamer) (m : BusMsg) : Streamer :=
  match m with
  | .error src =>
      if src = .rtspSrc then
        schedule_rtsp_reconnect (switch_to_dummy_source s)
      else
        stop s
  | .eos => stop s
  | .stateChanged src oldS newS =>
      if src = .rtspSrc then
        if newS = .playing then
          switch_to_rtsp_source { s with is_rtsp_connected := true }
        else if oldS = .playing ∧ newS.toNat < GstState.playing.toNat then
          schedule_rtsp_reconnect
            (switch_to_dummy_source { s with is_rtsp_connected := false })
        else s
      else s

/-- Engine outcomes for one run of `create_rtsp_decode_chain`: whether
the five elements are created, whether `gst_element_link_many` succeeds,
whether the two pad links succeed, and whether
`gst_element_get_state (rtsp_caps, ...)` returns
`GST_STATE_CHANGE_SUCCESS`. -/
structure ChainEnv where
  elemsOk : Bool
  chainLinkOk : Bool
  padLinkOk : Bool
  selLinkOk : Bool
  getStateSuccess : Bool
deriving DecidableEq

/-- `create_rtsp_decode_chain`: on element-creation or chain-link failure
it returns early; otherwise it links the pad(s) (failures there only
print), stores the requested selector pad under "rtsp-pad", and — only
when `gst_element_get_state` reports SUCCESS — registers the 1-second
`switch_to_rtsp_delayed` timeout. -/
def create_rtsp_decode_chain (env : ChainEnv) (s : Streamer) : Streamer :=
  if !env.elemsOk then s
  else if !env.chainLinkOk then s
  else
    let s1 := { s with rtspPadStored := some SPad.rtsp }
    if env.getStateSuccess then add_timeout 1 .graceSwitch s1 else s1

/-- `g_str_has_prefix` of glib, on the character sequences. -/
def gStrHasPre (str pre : String) : Bool :=
  pre.data.isPrefixOf str.data

/-- Data carried by one `pad-added` signal from `rtspsrc`: the caps
obtained for the pad (name, presence of a "media" field and its value)
and the engine outcomes for the decode-chain construction it may
trigger. -/
structure PadInfo where
  capsPresent : Bool
  capsName : String
  hasMediaField : Bool
  media : String
  chainEnv : ChainEnv
deriving DecidableEq

/-- `connect_rtsp_pad`: filters for `application/x-rtp` caps with a
"media" field equal to "video" and then builds the decode chain; all
other pads are ignored. -/
def connect_rtsp_pad (info : PadInfo) (s : Streamer) : Streamer :=
  if !info.capsPresent then s
  else if gStrHasPre info.capsName "application/x-rtp" && info.hasMediaField then
    if info.media = "video" then create_rtsp_decode_chain info.chainEnv s else s
  else s

/-- `cleanup()`: removes the reconnect timeout source if recorded,
removes the bus watch, sets the pipeline to NULL and releases pipeline,
bus and loop — each step guarded exactly as in the destructor path. -/
def cleanup (s : Streamer) : Streamer :=
  let s1 :=
    if s.reconnect_timeout_id > 0 then
      { remove_source s.reconnect_timeout_id s with reconnect_timeout_id := 0 }
    else s
  let s2 := if s1.bus_watch_id > 0 then { s1 with bus_watch_id := 0 } else s1
  let s3 := if s2.hasPipeline then { s2 with hasPipeline := false } else s2
  let s4 := if s3.hasBus then { s3 with hasBus := false } else s3
  if s4.hasLoop then { s4 with hasLoop := false } else s4

/-- One main-loop dispatch: a bus message, a `pad-added` signal, or a
timeout source firing. -/
inductive Event
  | bus (m : BusMsg)
  | padAdded (info : PadInfo)
  | timerFire (id : Nat)
deriving DecidableEq

/-- Firing the timeout source `id`: runs its callback; since both
callbacks return FALSE, GLib then removes the source.  Firing an id with
no pending source is a no-op. -/
def fire_timer (s : Streamer) (id : Nat) : Streamer :=
  match findTimer s id with
  | none => s
  | some t =>
      let s1 :=
        match t.kind with
        | .reconnect => reconnect_rtsp_source s
        | .graceSwitch => switch_to_rtsp_source s
      remove_source id s1

/-- The main-loop step function. -/
def step (s : Streamer) (e : Event) : Streamer :=
  match e with
  | .bus m => handle_bus_message s m
  | .padAdded info => connect_rtsp_pad info s
  | .timerFire id => fire_timer s id

/-- Folding `step` over an event list. -/
def run (s : Streamer) : List Event → Streamer
  | [] => s
  | e :: es => run (step s e) es

/-- State right after a successful `initialize()` + `start()`: the
dummy pad is stored and active (start begins with
`switch_to_dummy_source`), no rtsp pad exists yet, no timers pend, the
bus watch is installed and the main loop runs. -/
def initialState : Streamer :=
  { rtsp_uri := "rtsp://192.168.1.100:554/stream"
    output_path := "/var/www/html/dash"
    activePad := some SPad.dummy
    dummyPadStored := some SPad.dummy
    rtspPadStored := none
    is_rtsp_connected := false
    reconnect_timeout_id := 0
    pendingTimers := []
    nextTimerId := 1
    rtspSrcResetCount := 0
    bus_watch_id := 1
    hasPipeline := true
    hasBus := true
    hasLoop := true
    stopped := false }

/-- Engine environment in which every decode-chain operation succeeds. -/
def goodChainEnv : ChainEnv := ⟨true, true, true, true, true⟩

/-- A `pad-added` signal for the video elementary stream, with every
engine operation succeeding. -/
def videoPadInfo : PadInfo := ⟨true, "application/x-rtp", true, "video", goodChainEnv⟩

/-- The state after the decode sub-chain has been built successfully:
the rtsp pad is stored and the 1-second grace-delay switch (source
id 1) is pending. -/
def chainState : Streamer := run initialState [.padAdded videoPadInfo]

/-- A state in which neither selector pad has been stored yet. -/
def noPadState : Streamer :=
  { initialState with dummyPadStored := none, activePad := none }

/-- Well-formedness of the GLib timeout bookkeeping, as maintained by the
main loop: source ids are positive and below the next fresh id, ids are
unique, the recorded `reconnect_timeout_id` matches the pending reconnect
sources exactly (the recorded 5-second one, or none), and grace-delay
sources carry the fixed 1-second interval. -/
def timersWf (s : Streamer) : Prop :=
  0 < s.nextTimerId ∧
  (∀ t ∈ s.pendingTimers, 0 < t.id ∧ t.id < s.nextTimerId) ∧
  (s.pendingTimers.map Timer.id).Nodup ∧
  reconTimers s.pendingTimers =
    (if s.reconnect_timeout_id = 0 then []
     else [⟨s.reconnect_timeout_id, .reconnect, 5⟩]) ∧
  (∀ t ∈ s.pendingTimers, t.kind = .graceSwitch → t.interval = 1)

/-- The spec's failover invariant, relative to the code's state: the
dummy pad is the stored fallback input, and whenever the live source is
not connected the selector's active pad is the dummy pad. -/
def inv2 (s : Streamer) : Prop :=
  s.dummyPadStored = some SPad.dummy ∧
  (s.is_rtsp_connected = false → s.activePad = some SPad.dummy)

/-- Whether the event is the firing of a pending grace-delay
switch-to-live timeout in state `s`. -/
def graceFire (s : Streamer) (e : Event) : Bool :=
  match e with
  | .timerFire id =>
      match findTimer s id with
      | some t => t.kind == TimerKind.graceSwitch
      | none => false
  | _ => false

/-- The bus dispatch of one SourceError: an error message whose
originating node is `rtsp_src`. -/
def onSourceError (s : Streamer) : Streamer :=
  handle_bus_message s (.error .rtspSrc)

/-- Apply a function `n` times. -/
def applyN (f : α → α) : Nat → α → α
  | 0, a => a
  | n + 1, a => applyN f n (f a)

/-- The two configured quality profiles. -/
inductive Quality
  | fullhd
  | hd
deriving DecidableEq

/-- Properties set on one `dashsink` element by `create_dash_pipeline`. -/
structure DashSinkConf where
  quality : Quality
  mpd_filename : String
  muxer : Nat
  target_duration : Nat
  use_segment_list : Bool
  mpd_baseurl : String
  mpd_root_path : String
  send_keyframe_requests : Bool
deriving DecidableEq

/-- The `dashsink` configuration the code applies for quality `q` with
output directory `out`. -/
def dashSinkConf (q : Quality) (out : String) : DashSinkConf :=
  ⟨q, "./manifest.mpd", 0, 4, true, "./", out, true⟩

/-- Caps and encoder configuration of one profile branch. -/
structure ProfileBranchConf where
  width : Nat
  height : Nat
  framerateN : Nat
  framerateD : Nat
  bitrate : Nat
deriving DecidableEq

/-- Engine outcomes for one `create_dash_pipeline` call. -/
structure ProfileEnv where
  elemsOk : Bool
  chainLinkOk : Bool
  teePadOk : Bool
  queuePadOk : Bool
  padLinkOk : Bool
deriving DecidableEq

/-- Engine outcomes for one `initialize` run. -/
structure BuildEnv where
  pipelineOk : Bool
  rtspSrcOk : Bool
  dummySrcOk : Bool
  selectorOk : Bool
  teeOk : Bool
  dummyElemsOk : Bool
  dummyChainLinkOk : Bool
  dummyPadLinkOk : Bool
  selectorTeeLinkOk : Bool
  fullhdEnv : ProfileEnv
  hdEnv : ProfileEnv
deriving DecidableEq

/-- Milestones of graph construction, in the order the code reaches
them. -/
inductive BuildEvent
  | pipelineCreated
  | rtspSrcCreated
  | dummySrcCreated
  | selectorCreated
  | teeCreated
  | coreAdded
  | dummyElemsCreated
  | dummyChainLinked
  | dummyPadLinked
  | selectorTeeLinked
  | profileElemsCreated (q : Quality)
  | profileChainLinked (q : Quality)
  | profileTeeLinked (q : Quality)
  | busWatchAdded
deriving DecidableEq

/-- Result of one `create_dash_pipeline` call: success flag, milestones
reached, and the element configurations created. -/
structure ProfileResult where
  ok : Bool
  events : List BuildEvent
  sink : Option DashSinkConf
  branch : Option ProfileBranchConf
deriving DecidableEq

/-- `create_dash_pipeline (quality, width, height, bitrate)`: creates the
eight-element branch (failure aborts), configures caps / encoder / dash
sink, links the encoding chain, requests a tee pad and the queue pad,
and pad-links tee to queue; any failure returns false and aborts. -/
def create_dash_pipeline (env : ProfileEnv) (q : Quality)
    (width height bitrate : Nat) (out : String) : ProfileResult :=
  if !env.elemsOk then ⟨false, [], none, none⟩
  else
    let conf := dashSinkConf q out
    let branch : ProfileBranchConf := ⟨width, height, 25, 1, bitrate⟩
    if !env.chainLinkOk then ⟨false, [.profileElemsCreated q], some conf, some branch⟩
    else if !env.teePadOk then
      ⟨false, [.profileElemsCreated q, .profileChainLinked q], some conf, some branch⟩
    else if !env.queuePadOk then
      ⟨false, [.profileElemsCreated q, .profileChainLinked q], some conf, some branch⟩
    else if !env.padLinkOk then
      ⟨false, [.profileElemsCreated q, .profileChainLinked q], some conf, some branch⟩
    else
      ⟨true, [.profileElemsCreated q, .profileChainLinked q, .profileTeeLinked q],
        some conf, some branch⟩

/-- `connect_dummy_source`: creates the fallback branch elements
(videoconvert, capsfilter), links `dummy_src` through them, and pad-links
the branch into a requested selector sink pad, storing it as
"dummy-pad". -/
def connect_dummy_source (env : BuildEnv) : Bool × List BuildEvent :=
  if !env.dummyElemsOk then (false, [])
  else if !env.dummyChainLinkOk then (false, [.dummyElemsCreated])
  else if !env.dummyPadLinkOk then (false, [.dummyElemsCreated, .dummyChainLinked])
  else (true, [.dummyElemsCreated, .dummyChainLinked, .dummyPadLinked])

/-- Result of `initialize`. -/
structure BuildResult where
  ok : Bool
  events : List BuildEvent
  sinks : List DashSinkConf
  dummyPadSet : Bool
deriving DecidableEq

/-- The `initialize` method: creates pipeline and the four core elements
(each failure aborts), adds them, connects the fallback branch, links
selector to tee, then builds the fullhd and the hd profile branch (each
failure aborts), and installs the bus watch. -/
def init_streamer (env : BuildEnv) (out : String) : BuildResult :=
  if !env.pipelineOk then ⟨false, [], [], false⟩
  else if !env.rtspSrcOk then ⟨false, [.pipelineCreated], [], false⟩
  else if !env.dummySrcOk then ⟨false, [.pipelineCreated, .rtspSrcCreated], [], false⟩
  else if !env.selectorOk then
    ⟨false, [.pipelineCreated, .rtspSrcCreated, .dummySrcCreated], [], false⟩
  else if !env.teeOk then
    ⟨false, [.pipelineCreated, .rtspSrcCreated, .dummySrcCreated, .selectorCreated], [], false⟩
  else if !(connect_dummy_source env).1 then
    ⟨false,
      [.pipelineCreated, .rtspSrcCreated, .dummySrcCreated, .selectorCreated, .teeCreated,
        .coreAdded] ++ (connect_dummy_source env).2, [], false⟩
  else if !env.selectorTeeLinkOk then
    ⟨false,
      [.pipelineCreated, .rtspSrcCreated, .dummySrcCreated, .selectorCreated, .teeCreated,
        .coreAdded] ++ (connect_dummy_source env).2, [], true⟩
  else if !(create_dash_pipeline env.fullhdEnv .fullhd 1920 1080 5000 out).ok then
    ⟨false,
      ([.pipelineCreated, .rtspSrcCreated, .dummySrcCreated, .selectorCreated, .teeCreated,
        .coreAdded] ++ (connect_dummy_source env).2 ++ [.selectorTeeLinked]) ++
        (create_dash_pipeline env.fullhdEnv .fullhd 1920 1080 5000 out).events,
      (create_dash_pipeline env.fullhdEnv .fullhd 1920 1080 5000 out).sink.toList, true⟩
  else if !(create_dash_pipeline env.hdEnv .hd 1280 720 3000 out).ok then
    ⟨false,
      ([.pipelineCreated, .rtspSrcCreated, .dummySrcCreated, .selectorCreated, .teeCreated,
        .coreAdded] ++ (connect_dummy_source env).2 ++ [.selectorTeeLinked]) ++
        ((create_dash_pipeline env.fullhdEnv .fullhd 1920 1080 5000 out).events ++
          (create_dash_pipeline env.hdEnv .hd 1280 720 3000 out).events),
      (create_dash_pipeline env.fullhdEnv .fullhd 1920 1080 5000 out).sink.toList ++
        (create_dash_pipeline env.hdEnv .hd 1280 720 3000 out).sink.toList, true⟩
  else
    ⟨true,
      ([.pipelineCreated, .rtspSrcCreated, .dummySrcCreated, .selectorCreated, .teeCreated,
        .coreAdded] ++ (connect_dummy_source env).2 ++ [.selectorTeeLinked]) ++
        ((create_dash_pipeline env.fullhdEnv .fullhd 1920 1080 5000 out).events ++
          (create_dash_pipeline env.hdEnv .hd 1280 720 3000 out).events ++
          [.busWatchAdded]),
      (create_dash_pipeline env.fullhdEnv .fullhd 1920 1080 5000 out).sink.toList ++
        (create_dash_pipeline env.hdEnv .hd 1280 720 3000 out).sink.toList, true⟩

/-- The `main` entry point: checks the argument count (usage message,
exit 1), runs `initialize` (failure: exit 1, no streaming), then starts
streaming.  The second component records whether `start()` was
invoked. -/
def mainRun (argc : Nat) (env : BuildEnv) (out : String) (startOk : Bool) : Nat × Bool :=
  if argc < 3 then (1, false)
  else if !(init_streamer env out).ok then (1, false)
  else if !startOk then (1, true)
  else (0, true)

/-- All engine operations of one profile branch succeed. -/
def profileAllOk (p : ProfileEnv) : Bool :=
  p.elemsOk && p.chainLinkOk && p.teePadOk && p.queuePadOk && p.padLinkOk

/-- The profile environment of a configured quality. -/
def profEnvOf (env : BuildEnv) : Quality → ProfileEnv
  | .fullhd => env.fullhdEnv
  | .hd => env.hdEnv

/-- Build environment in which every engine operation succeeds. -/
def allOkEnv : BuildEnv :=
  ⟨true, true, true, true, true, true, true, true, true,
    ⟨true, true, true, true, true⟩, ⟨true, true, true, true, true⟩⟩

/-- Build environment in which linking the hd branch to the tee fails. -/
def badHdEnv : BuildEnv :=
  ⟨true, true, true, true, true, true, true, true, true,
    ⟨true, true, true, true, true⟩, ⟨true, true, true, true, false⟩⟩

/-- State after one SourceError dispatch from the initial state: a
reconnect timer (source id 1) is pending. -/
def erroredState : Streamer := run initialState [.bus (.error .rtspSrc)]

instance (s : Streamer) : Decidable (timersWf s) := by
  unfold timersWf
  infer_instance

instance (s : Streamer) : Decidable (inv2 s) := by
  unfold inv2
  infer_instance

theorem kindTimers_append (k : TimerKind) (l1 l2 : List Timer) :
    kindTimers k (l1 ++ l2) = kindTimers k l1 ++ kindTimers k l2 := by
  unfold kindTimers
  exact List.filter_append l1 l2

theorem mem_kindTimers {k : TimerKind} {t : Timer} {l : List Timer} :
    t ∈ kindTimers k l ↔ t ∈ l ∧ t.kind = k := by
  simp [kindTimers, List.mem_filter]

theorem kindTimers_filter (k : TimerKind) (p : Timer → Bool) (l : List Timer) :
    kindTimers k (l.filter p) = (kindTimers k l).filter p := by
  unfold kindTimers
  rw [List.filter_filter, List.filter_filter]
  exact List.filter_congr (fun a _ => Bool.and_comm _ _)

theorem find_by_id {l : List Timer} {t : Timer} (hnd : (l.map Timer.id).Nodup)
    (hm : t ∈ l) : l.find? (fun u => u.id == t.id) = some t := by
  induction l with
  | nil => cases hm
  | cons a tl ih =>
    rw [List.map_cons, List.nodup_cons] at hnd
    rcases List.mem_cons.mp hm with rfl | hmem
    · exact List.find?_cons_of_pos _ (by simp)
    · have hne : ¬(a.id == t.id) = true := by
        simp only [beq_iff_eq]
        intro he
        exact hnd.1 (by rw [he]; exact List.mem_map_of_mem _ hmem)
      rw [@List.find?_cons_of_neg _ (fun u => u.id == t.id) a tl hne]
      exact ih hnd.2 hmem

theorem id_inj {l : List Timer} (hnd : (l.map Timer.id).Nodup) {t u : Timer}
    (ht : t ∈ l) (hu : u ∈ l) (he : t.id = u.id) : t = u :=
  List.inj_on_of_nodup_map hnd ht hu he

theorem kindTimers_remove_of_ne (k : TimerKind) (l : List Timer) (id : Nat)
    (h : ∀ t ∈ kindTimers k l, t.id ≠ id) :
    kindTimers k (l.filter (fun t => t.id != id)) = kindTimers k l := by
  rw [kindTimers_filter]
  apply List.filter_eq_self.mpr
  intro t ht
  simpa using h t ht

theorem reconTimers_remove_self {l : List Timer} {rid : Nat}
    (h : reconTimers l = [⟨rid, .reconnect, 5⟩]) :
    reconTimers (l.filter (fun t => t.id != rid)) = [] := by
  unfold reconTimers at *
  rw [kindTimers_filter, h]
  simp

theorem switch_dummy_active {s : Streamer} {p : SPad} (h : s.dummyPadStored = some p) :
    switch_to_dummy_source s = { s with activePad := some p } := by
  unfold switch_to_dummy_source
  rw [h]

theorem switch_rtsp_active {s : Streamer} {p : SPad} (h : s.rtspPadStored = some p) :
    switch_to_rtsp_source s = { s with activePad := some p } := by
  unfold switch_to_rtsp_source
  rw [h]

theorem switch_dummy_fields (s : Streamer) :
    (switch_to_dummy_source s).pendingTimers = s.pendingTimers ∧
    (switch_to_dummy_source s).nextTimerId = s.nextTimerId ∧
    (switch_to_dummy_source s).reconnect_timeout_id = s.reconnect_timeout_id ∧
    (switch_to_dummy_source s).is_rtsp_connected = s.is_rtsp_connected ∧
    (switch_to_dummy_source s).dummyPadStored = s.dummyPadStored ∧
    (switch_to_dummy_source s).rtspPadStored = s.rtspPadStored ∧
    (switch_to_dummy_source s).stopped = s.stopped ∧
    (switch_to_dummy_source s).hasLoop = s.hasLoop ∧
    (switch_to_dummy_source s).rtspSrcResetCount = s.rtspSrcResetCount := by
  obtain ⟨u, o, a, d, r, c, ri, pt, nt, rc, bw, hp, hb, hl, st⟩ := s
  unfold switch_to_dummy_source
  cases d <;> exact ⟨rfl, rfl, rfl, rfl, rfl, rfl, rfl, rfl, rfl⟩

theorem switch_rtsp_fields (s : Streamer) :
    (switch_to_rtsp_source s).pendingTimers = s.pendingTimers ∧
    (switch_to_rtsp_source s).nextTimerId = s.nextTimerId ∧
    (switch_to_rtsp_source s).reconnect_timeout_id = s.reconnect_timeout_id ∧
    (switch_to_rtsp_source s).is_rtsp_connected = s.is_rtsp_connected ∧
    (switch_to_rtsp_source s).dummyPadStored = s.dummyPadStored ∧
    (switch_to_rtsp_source s).rtspPadStored = s.rtspPadStored ∧
    (switch_to_rtsp_source s).stopped = s.stopped ∧
    (switch_to_rtsp_source s).hasLoop = s.hasLoop ∧
    (switch_to_rtsp_source s).rtspSrcResetCount = s.rtspSrcResetCount := by
  obtain ⟨u, o, a, d, r, c, ri, pt, nt, rc, bw, hp, hb, hl, st⟩ := s
  unfold switch_to_rtsp_source
  cases r <;> exact ⟨rfl, rfl, rfl, rfl, rfl, rfl, rfl, rfl, rfl⟩

theorem timersWf_irrel {s s' : Streamer}
    (h1 : s'.pendingTimers = s.pendingTimers)
    (h2 : s'.nextTimerId = s.nextTimerId)
    (h3 : s'.reconnect_timeout_id = s.reconnect_timeout_id)
    (h : timersWf s) : timersWf s' := by
  unfold timersWf at *
  rw [h1, h2, h3]
  exact h

theorem schedule_spec (s : Streamer) (h : timersWf s) :
    timersWf (schedule_rtsp_reconnect s) ∧
    (schedule_rtsp_reconnect s).reconnect_timeout_id = s.nextTimerId ∧
    (schedule_rtsp_reconnect s).nextTimerId = s.nextTimerId + 1 ∧
    reconTimers (schedule_rtsp_reconnect s).pendingTimers =
      [⟨s.nextTimerId, .reconnect, 5⟩] ∧
    graceTimers (schedule_rtsp_reconnect s).pendingTimers =
      graceTimers s.pendingTimers ∧
    (schedule_rtsp_reconnect s).activePad = s.activePad ∧
    (schedule_rtsp_reconnect s).is_rtsp_connected = s.is_rtsp_connected ∧
    (schedule_rtsp_reconnect s).dummyPadStored = s.dummyPadStored ∧
    (schedule_rtsp_reconnect s).stopped = s.stopped ∧
    (schedule_rtsp_reconnect s).hasLoop = s.hasLoop := by
  obtain ⟨hpos, hbnd, hnd, hrec, hgr⟩ := h
  by_cases hr : s.reconnect_timeout_id > 0
  · have hrecl : reconTimers s.pendingTimers = [⟨s.reconnect_timeout_id, .reconnect, 5⟩] := by
      rw [hrec, if_neg (by omega)]
    have hsched : schedule_rtsp_reconnect s =
        { s with
            pendingTimers :=
              s.pendingTimers.filter (fun t => t.id != s.reconnect_timeout_id) ++
                [⟨s.nextTimerId, .reconnect, 5⟩],
            nextTimerId := s.nextTimerId + 1,
            reconnect_timeout_id := s.nextTimerId } := by
      unfold schedule_rtsp_reconnect remove_source add_timeout
      rw [if_pos hr]
    have hrec2 : reconTimers
        (s.pendingTimers.filter (fun t => t.id != s.reconnect_timeout_id) ++
          [⟨s.nextTimerId, .reconnect, 5⟩]) = [⟨s.nextTimerId, .reconnect, 5⟩] := by
      rw [reconTimers, kindTimers_append]
      rw [show kindTimers TimerKind.reconnect
        (s.pendingTimers.filter (fun t => t.id != s.reconnect_timeout_id)) = [] from
        reconTimers_remove_self hrecl]
      simp [kindTimers]
    have hrm : kindTimers TimerKind.graceSwitch
        (s.pendingTimers.filter (fun t => t.id != s.reconnect_timeout_id)) =
        kindTimers TimerKind.graceSwitch s.pendingTimers := by
      apply kindTimers_remove_of_ne
      intro t ht hid
      have htl := (mem_kindTimers.mp ht).1
      have htk := (mem_kindTimers.mp ht).2
      have hTm : (⟨s.reconnect_timeout_id, .reconnect, 5⟩ : Timer) ∈
          reconTimers s.pendingTimers := by
        rw [hrecl]
        exact List.mem_singleton.mpr rfl
      have hTl := (mem_kindTimers.mp hTm).1
      have heq := id_inj hnd htl hTl hid
      rw [heq] at htk
      cases htk
    have hgr2 : graceTimers
        (s.pendingTimers.filter (fun t => t.id != s.reconnect_timeout_id) ++
          [⟨s.nextTimerId, .reconnect, 5⟩]) = graceTimers s.pendingTimers := by
      rw [graceTimers, kindTimers_append, hrm]
      simp [graceTimers, kindTimers]
    rw [hsched]
    unfold timersWf
    dsimp only
    refine ⟨⟨by omega, ?_, ?_, ?_, ?_⟩, rfl, rfl, hrec2, hgr2, rfl, rfl, rfl, rfl, rfl⟩
    · intro t ht
      rcases List.mem_append.mp ht with hl | hr2
      · have := hbnd t (List.mem_of_mem_filter hl)
        omega
      · rw [List.mem_singleton.mp hr2]
        dsimp only
        refine ⟨by omega, by omega⟩
    · rw [List.map_append]
      apply List.Nodup.append
      · exact List.Nodup.sublist ((List.filter_sublist _).map Timer.id) hnd
      · simp
      · intro a ha hb
        simp only [List.map_cons, List.map_nil, List.mem_singleton] at hb
        rcases List.mem_map.mp ha with ⟨t, htl, rfl⟩
        have := hbnd t (List.mem_of_mem_filter htl)
        omega
    · rw [hrec2, if_neg (by omega)]
    · intro t ht hk
      rcases List.mem_append.mp ht with hl | hr2
      · exact hgr t (List.mem_of_mem_filter hl) hk
      · rw [List.mem_singleton.mp hr2] at hk
        cases hk
  · have hr0 : s.reconnect_timeout_id = 0 := by omega
    have hrecl : reconTimers s.pendingTimers = [] := by rw [hrec, if_pos hr0]
    have hsched : schedule_rtsp_reconnect s =
        { s with
            pendingTimers := s.pendingTimers ++ [⟨s.nextTimerId, .reconnect, 5⟩],
            nextTimerId := s.nextTimerId + 1,
            reconnect_timeout_id := s.nextTimerId } := by
      unfold schedule_rtsp_reconnect remove_source add_timeout
      rw [if_neg hr]
    have hrec2 : reconTimers (s.pendingTimers ++ [⟨s.nextTimerId, .reconnect, 5⟩]) =
        [⟨s.nextTimerId, .reconnect, 5⟩] := by
      rw [reconTimers, kindTimers_append]
      rw [show kindTimers TimerKind.reconnect s.pendingTimers = [] from hrecl]
      simp [kindTimers]
    have hgr2 : graceTimers (s.pendingTimers ++ [⟨s.nextTimerId, .reconnect, 5⟩]) =
        graceTimers s.pendingTimers := by
      rw [graceTimers, kindTimers_append]
      simp [kindTimers, graceTimers]
    rw [hsched]
    unfold timersWf
    dsimp only
    refine ⟨⟨by omega, ?_, ?_, ?_, ?_⟩, rfl, rfl, hrec2, hgr2, rfl, rfl, rfl, rfl, rfl⟩
    · intro t ht
      rcases List.mem_append.mp ht with hl | hr2
      · have := hbnd t hl
        omega
      · rw [List.mem_singleton.mp hr2]
        dsimp only
        refine ⟨by omega, by omega⟩
    · rw [List.map_append]
      apply List.Nodup.append
      · exact hnd
      · simp
      · intro a ha hb
        simp only [List.map_cons, List.map_nil, List.mem_singleton] at hb
        rcases List.mem_map.mp ha with ⟨t, htl, rfl⟩
        have := hbnd t htl
        omega
    · rw [hrec2, if_neg (by omega)]
    · intro t ht hk
      rcases List.mem_append.mp ht with hl | hr2
      · exact hgr t hl hk
      · rw [List.mem_singleton.mp hr2] at hk
        cases hk

theorem add_grace_spec (s : Streamer) (h : timersWf s) :
    timersWf (add_timeout 1 .graceSwitch s) ∧
    reconTimers (add_timeout 1 .graceSwitch s).pendingTimers = reconTimers s.pendingTimers ∧
    graceTimers (add_timeout 1 .graceSwitch s).pendingTimers =
      graceTimers s.pendingTimers ++ [⟨s.nextTimerId, .graceSwitch, 1⟩] := by
  obtain ⟨hpos, hbnd, hnd, hrec, hgr⟩ := h
  have hrec2 : reconTimers (s.pendingTimers ++ [⟨s.nextTimerId, .graceSwitch, 1⟩]) =
      reconTimers s.pendingTimers := by
    rw [reconTimers, kindTimers_append]
    simp [kindTimers, reconTimers]
  have hgr2 : graceTimers (s.pendingTimers ++ [⟨s.nextTimerId, .graceSwitch, 1⟩]) =
      graceTimers s.pendingTimers ++ [⟨s.nextTimerId, .graceSwitch, 1⟩] := by
    rw [graceTimers, kindTimers_append]
    simp [kindTimers, graceTimers]
  unfold add_timeout timersWf
  dsimp only
  refine ⟨⟨by omega, ?_, ?_, ?_, ?_⟩, hrec2, hgr2⟩
  · intro t ht
    rcases List.mem_append.mp ht with hl | hr2
    · have := hbnd t hl
      omega
    · rw [List.mem_singleton.mp hr2]
      dsimp only
      refine ⟨by omega, by omega⟩
  · rw [List.map_append]
    apply List.Nodup.append
    · exact hnd
    · simp
    · intro a ha hb
      simp only [List.map_cons, List.map_nil, List.mem_singleton] at hb
      rcases List.mem_map.mp ha with ⟨t, htl, rfl⟩
      have := hbnd t htl
      omega
  · rw [hrec2, hrec]
  · intro t ht hk
    rcases List.mem_append.mp ht with hl | hr2
    · exact hgr t hl hk
    · rw [List.mem_singleton.mp hr2]

theorem chain_spec (env : ChainEnv) (s : Streamer) (h : timersWf s) :
    timersWf (create_rtsp_decode_chain env s) ∧
    (create_rtsp_decode_chain env s).activePad = s.activePad ∧
    (create_rtsp_decode_chain env s).is_rtsp_connected = s.is_rtsp_connected ∧
    (create_rtsp_decode_chain env s).dummyPadStored = s.dummyPadStored ∧
    (create_rtsp_decode_chain env s).reconnect_timeout_id = s.reconnect_timeout_id ∧
    (create_rtsp_decode_chain env s).stopped = s.stopped ∧
    (create_rtsp_decode_chain env s).hasLoop = s.hasLoop ∧
    reconTimers (create_rtsp_decode_chain env s).pendingTimers =
      reconTimers s.pendingTimers ∧
    graceTimers (create_rtsp_decode_chain env s).pendingTimers =
      graceTimers s.pendingTimers ++
        (if env.elemsOk && env.chainLinkOk && env.getStateSuccess then
          [⟨s.nextTimerId, TimerKind.graceSwitch, 1⟩] else []) := by
  obtain ⟨e1, e2, e3, e4, e5⟩ := env
  have hs' : timersWf { s with rtspPadStored := some SPad.rtsp } :=
    timersWf_irrel rfl rfl rfl h
  have ha := add_grace_spec { s with rtspPadStored := some SPad.rtsp } hs'
  cases e1 with
  | false =>
    refine ⟨h, rfl, rfl, rfl, rfl, rfl, rfl, rfl, ?_⟩
    simp [create_rtsp_decode_chain]
  | true =>
    cases e2 with
    | false =>
      refine ⟨h, rfl, rfl, rfl, rfl, rfl, rfl, rfl, ?_⟩
      simp [create_rtsp_decode_chain]
    | true =>
      cases e5 with
      | false =>
        refine ⟨hs', rfl, rfl, rfl, rfl, rfl, rfl, rfl, ?_⟩
        simp [create_rtsp_decode_chain]
      | true =>
        refine ⟨ha.1, rfl, rfl, rfl, rfl, rfl, rfl, ha.2.1, ?_⟩
        rw [show create_rtsp_decode_chain ⟨true, true, e3, e4, true⟩ s =
          add_timeout 1 .graceSwitch { s with rtspPadStored := some SPad.rtsp } from rfl,
          ha.2.2]
        simp

theorem fire_none_eq {s : Streamer} {id : Nat} (h : findTimer s id = none) :
    fire_timer s id = s := by
  unfold fire_timer
  rw [h]

theorem fire_recon_eq (s : Streamer) (h : timersWf s) (hr : s.reconnect_timeout_id ≠ 0) :
    findTimer s s.reconnect_timeout_id = some ⟨s.reconnect_timeout_id, .reconnect, 5⟩ ∧
    fire_timer s s.reconnect_timeout_id =
      { s with
          rtspSrcResetCount := s.rtspSrcResetCount + 1,
          reconnect_timeout_id := 0,
          pendingTimers :=
            s.pendingTimers.filter (fun t => t.id != s.reconnect_timeout_id) } := by
  obtain ⟨hpos, hbnd, hnd, hrec, hgr⟩ := h
  have hrecl : reconTimers s.pendingTimers = [⟨s.reconnect_timeout_id, .reconnect, 5⟩] := by
    rw [hrec, if_neg hr]
  have hTr : (⟨s.reconnect_timeout_id, TimerKind.reconnect, 5⟩ : Timer) ∈
      reconTimers s.pendingTimers := by
    rw [hrecl]
    exact List.mem_singleton.mpr rfl
  have hTm : (⟨s.reconnect_timeout_id, TimerKind.reconnect, 5⟩ : Timer) ∈ s.pendingTimers :=
    (mem_kindTimers.mp hTr).1
  have hfind : findTimer s s.reconnect_timeout_id =
      some ⟨s.reconnect_timeout_id, .reconnect, 5⟩ := by
    unfold findTimer
    exact find_by_id hnd hTm
  refine ⟨hfind, ?_⟩
  unfold fire_timer
  rw [hfind]
  rfl

theorem fire_grace_eq (s : Streamer) {id : Nat} {t : Timer}
    (hf : findTimer s id = some t) (hk : t.kind = .graceSwitch) :
    fire_timer s id = remove_source id (switch_to_rtsp_source s) := by
  obtain ⟨tid, tkind, tintv⟩ := t
  simp only at hk
  subst hk
  unfold fire_timer
  rw [hf]

theorem timersWf_fire (s : Streamer) (id : Nat) (h : timersWf s) :
    timersWf (fire_timer s id) := by
  cases hf : findTimer s id with
  | none =>
    rw [fire_none_eq hf]
    exact h
  | some t =>
    have htl : t ∈ s.pendingTimers := List.mem_of_find?_eq_some hf
    have htid : t.id = id := by simpa using List.find?_some hf
    cases hk : t.kind with
    | reconnect =>
      have htr : t ∈ reconTimers s.pendingTimers := mem_kindTimers.mpr ⟨htl, hk⟩
      by_cases hr : s.reconnect_timeout_id = 0
      · rw [h.2.2.2.1, if_pos hr] at htr
        cases htr
      · rw [h.2.2.2.1, if_neg hr] at htr
        have hteq : t = ⟨s.reconnect_timeout_id, .reconnect, 5⟩ := List.mem_singleton.mp htr
        have hid : id = s.reconnect_timeout_id := by
          rw [← htid, hteq]
        subst hid
        rw [(fire_recon_eq s h (by omega)).2]
        obtain ⟨hpos, hbnd, hnd, hrec, hgr⟩ := h
        have hrecl : reconTimers s.pendingTimers =
            [⟨s.reconnect_timeout_id, .reconnect, 5⟩] := by
          rw [hrec, if_neg (by omega)]
        unfold timersWf
        dsimp only
        refine ⟨by omega, ?_, ?_, ?_, ?_⟩
        · intro u hu
          exact hbnd u (List.mem_of_mem_filter hu)
        · exact List.Nodup.sublist ((List.filter_sublist _).map Timer.id) hnd
        · rw [if_pos rfl]
          exact reconTimers_remove_self hrecl
        · intro u hu hk2
          exact hgr u (List.mem_of_mem_filter hu) hk2
    | graceSwitch =>
      rw [fire_grace_eq s hf hk]
      obtain ⟨hpos, hbnd, hnd, hrec, hgr⟩ := h
      have hsw := switch_rtsp_fields s
      unfold timersWf remove_source
      dsimp only
      rw [hsw.1, hsw.2.1, hsw.2.2.1]
      refine ⟨by omega, ?_, ?_, ?_, ?_⟩
      · intro u hu
        exact hbnd u (List.mem_of_mem_filter hu)
      · exact List.Nodup.sublist ((List.filter_sublist _).map Timer.id) hnd
      · rw [show reconTimers (s.pendingTimers.filter (fun u => u.id != id)) =
          reconTimers s.pendingTimers from ?_]
        · exact hrec
        · apply kindTimers_remove_of_ne
          intro u hu hid
          have hul := (mem_kindTimers.mp hu).1
          have huk := (mem_kindTimers.mp hu).2
          have hut : u = t := id_inj hnd hul htl (by rw [hid, htid])
          rw [hut, hk] at huk
          cases huk
      · intro u hu hk2
        exact hgr u (List.mem_of_mem_filter hu) hk2

theorem timersWf_handle (s : Streamer) (m : BusMsg) (h : timersWf s) :
    timersWf (handle_bus_message s m) := by
  have hstop : timersWf (stop s) := by
    unfold stop
    split
    · exact timersWf_irrel rfl rfl rfl h
    · exact h
  cases m with
  | error src =>
    by_cases hs : src = .rtspSrc
    · simp only [handle_bus_message, if_pos hs]
      have h1 : timersWf (switch_to_dummy_source s) :=
        timersWf_irrel (switch_dummy_fields s).1 (switch_dummy_fields s).2.1
          (switch_dummy_fields s).2.2.1 h
      exact (schedule_spec _ h1).1
    · simp only [handle_bus_message, if_neg hs]
      exact hstop
  | eos => exact hstop
  | stateChanged src oldS newS =>
    by_cases hs : src = .rtspSrc
    · by_cases hn : newS = .playing
      · simp only [handle_bus_message, if_pos hs, if_pos hn]
        have h1 : timersWf ({ s with is_rtsp_connected := true } : Streamer) :=
          timersWf_irrel rfl rfl rfl h
        exact timersWf_irrel (switch_rtsp_fields _).1 (switch_rtsp_fields _).2.1
          (switch_rtsp_fields _).2.2.1 h1
      · by_cases ho : oldS = .playing ∧ newS.toNat < GstState.playing.toNat
        · simp only [handle_bus_message, if_pos hs, if_neg hn, if_pos ho]
          have h1 : timersWf ({ s with is_rtsp_connected := false } : Streamer) :=
            timersWf_irrel rfl rfl rfl h
          have h2 : timersWf (switch_to_dummy_source
              ({ s with is_rtsp_connected := false } : Streamer)) :=
            timersWf_irrel (switch_dummy_fields _).1 (switch_dummy_fields _).2.1
              (switch_dummy_fields _).2.2.1 h1
          exact (schedule_spec _ h2).1
        · simp only [handle_bus_message, if_pos hs, if_neg hn, if_neg ho]
          exact h
    · simp only [handle_bus_message, if_neg hs]
      exact h

theorem timersWf_connect_pad (info : PadInfo) (s : Streamer) (h : timersWf s) :
    timersWf (connect_rtsp_pad info s) := by
  unfold connect_rtsp_pad
  split_ifs <;> first | exact h | exact (chain_spec _ _ h).1

theorem timersWf_step (s : Streamer) (e : Event) (h : timersWf s) :
    timersWf (step s e) := by
  cases e with
  | bus m => exact timersWf_handle s m h
  | padAdded info => exact timersWf_connect_pad info s h
  | timerFire id => exact timersWf_fire s id h

/-- C6: invoking the switch operation with the branch that is already the
Selector's active input leaves the whole streamer state unchanged — no
active-pad change, no relinking, no other side effect — for both the
fallback (dummy) and the live (rtsp) branch. -/
theorem C6_switch_idempotent (s : Streamer) (p : SPad) :
    (s.dummyPadStored = some p → s.activePad = some p → switch_to_dummy_source s = s) ∧
    (s.rtspPadStored = some p → s.activePad = some p → switch_to_rtsp_source s = s) := by
  obtain ⟨u, o, a, d, r, c, ri, pt, nt, rc, bw, hp, hb, hl, st⟩ := s
  constructor
  · intro h1 h2
    simp only at h1 h2
    subst h1
    subst h2
    rfl
  · intro h1 h2
    simp only at h1 h2
    subst h1
    subst h2
    rfl

/-- Witness for C6: in the initial state the dummy pad is stored and
active, and switching to the dummy source is the identity; in the
post-decode-chain state after the grace timer fired, the rtsp pad is
active and switching to the rtsp source is the identity. -/
theorem C6_switch_idempotent_witness :
    switch_to_dummy_source initialState = initialState ∧
    switch_to_rtsp_source (run chainState [.timerFire 1]) = run chainState [.timerFire 1] :=
  ⟨(C6_switch_idempotent initialState SPad.dummy).1 (by decide) (by decide),
   (C6_switch_idempotent (run chainState [.timerFire 1]) SPad.rtsp).2 (by decide) (by decide)⟩

/-- C10: if the selector pad for the requested branch has not been
stored, the switch operation is a no-op on the entire streamer state,
for both branches. -/
theorem C10_switch_missing_pad_noop (s : Streamer) :
    (s.rtspPadStored = none → switch_to_rtsp_source s = s) ∧
    (s.dummyPadStored = none → switch_to_dummy_source s = s) := by
  constructor
  · intro h
    unfold switch_to_rtsp_source
    rw [h]
  · intro h
    unfold switch_to_dummy_source
    rw [h]

/-- Witness for C10: in the initial state no rtsp pad is stored and
switch-to-rtsp does nothing; in a state with no dummy pad stored,
switch-to-dummy does nothing. -/
theorem C10_switch_missing_pad_noop_witness :
    switch_to_rtsp_source initialState = initialState ∧
    switch_to_dummy_source noPadState = noPadState :=
  ⟨(C10_switch_missing_pad_noop initialState).1 (by decide),
   (C10_switch_missing_pad_noop noPadState).2 (by decide)⟩

/-- C3: at most one reconnect timer is pending at any time.  Timer
well-formedness — which pins the pending reconnect sources to exactly the
recorded one or none — is preserved by every event; one
`schedule_rtsp_reconnect` call leaves exactly one pending reconnect
source (cancel-and-replace); and any sequence of SourceError dispatches
arriving before the pending timer fires leaves exactly one scheduled
reconnect timer. -/
theorem C3_reconnect_debounced (s : Streamer) (h : timersWf s) :
    (∀ e, timersWf (step s e)) ∧
    (reconTimers (schedule_rtsp_reconnect s).pendingTimers).length = 1 ∧
    (∀ n, (reconTimers (applyN onSourceError (n + 1) s).pendingTimers).length = 1) := by
  have hkey : ∀ (m : Nat) (u : Streamer), timersWf u → u.reconnect_timeout_id ≠ 0 →
      (reconTimers (applyN onSourceError m u).pendingTimers).length = 1 := by
    intro m
    induction m with
    | zero =>
      intro u hu hr
      have hrecl : reconTimers u.pendingTimers = [⟨u.reconnect_timeout_id, .reconnect, 5⟩] := by
        rw [hu.2.2.2.1, if_neg hr]
      rw [show applyN onSourceError 0 u = u from rfl, hrecl]
      rfl
    | succ m ih =>
      intro u hu hr
      have hsw : timersWf (switch_to_dummy_source u) :=
        timersWf_irrel (switch_dummy_fields u).1 (switch_dummy_fields u).2.1
          (switch_dummy_fields u).2.2.1 hu
      have hoe : onSourceError u = schedule_rtsp_reconnect (switch_to_dummy_source u) := rfl
      have h1 : timersWf (onSourceError u) := by
        rw [hoe]
        exact (schedule_spec _ hsw).1
      have h2 : (onSourceError u).reconnect_timeout_id ≠ 0 := by
        rw [hoe, (schedule_spec _ hsw).2.1, (switch_dummy_fields u).2.1]
        have := hu.1
        omega
      exact ih (onSourceError u) h1 h2
  refine ⟨fun e => timersWf_step s e h, ?_, ?_⟩
  · rw [(schedule_spec s h).2.2.2.1]
    rfl
  · intro n
    have hsw : timersWf (switch_to_dummy_source s) :=
      timersWf_irrel (switch_dummy_fields s).1 (switch_dummy_fields s).2.1
        (switch_dummy_fields s).2.2.1 h
    have hoe : onSourceError s = schedule_rtsp_reconnect (switch_to_dummy_source s) := rfl
    have h1 : timersWf (onSourceError s) := by
      rw [hoe]
      exact (schedule_spec _ hsw).1
    have h2 : (onSourceError s).reconnect_timeout_id ≠ 0 := by
      rw [hoe, (schedule_spec _ hsw).2.1, (switch_dummy_fields s).2.1]
      have := h.1
      omega
    exact hkey n (onSourceError s) h1 h2

/-- Witness for C3 at the initial state: an EOS dispatch preserves timer
well-formedness, one schedule call leaves one pending reconnect source,
and two consecutive SourceErrors leave exactly one. -/
theorem C3_witness :
    timersWf (step initialState (.bus .eos)) ∧
    (reconTimers (schedule_rtsp_reconnect initialState).pendingTimers).length = 1 ∧
    (reconTimers (applyN onSourceError 2 initialState).pendingTimers).length = 1 :=
  ⟨(C3_reconnect_debounced initialState (by decide)).1 _,
   (C3_reconnect_debounced initialState (by decide)).2.1,
   (C3_reconnect_debounced initialState (by decide)).2.2 1⟩

/-- C4: the scheduled reconnect timer is the recorded 5-second source;
firing it resets the rtsp source once (NULL then PLAYING), clears the
recorded id, removes only itself from the pending sources, schedules
nothing new, is a no-op when fired again, and a subsequent `schedule()`
creates a reconnect timer with the same fixed 5-second interval
(constant-interval retry). -/
theorem C4_reconnect_fires_once (s : Streamer) (h : timersWf s)
    (hr : s.reconnect_timeout_id ≠ 0) :
    findTimer s s.reconnect_timeout_id = some ⟨s.reconnect_timeout_id, .reconnect, 5⟩ ∧
    (fire_timer s s.reconnect_timeout_id).rtspSrcResetCount = s.rtspSrcResetCount + 1 ∧
    (fire_timer s s.reconnect_timeout_id).reconnect_timeout_id = 0 ∧
    (fire_timer s s.reconnect_timeout_id).pendingTimers =
      s.pendingTimers.filter (fun t => t.id != s.reconnect_timeout_id) ∧
    reconTimers (fire_timer s s.reconnect_timeout_id).pendingTimers = [] ∧
    (fire_timer s s.reconnect_timeout_id).nextTimerId = s.nextTimerId ∧
    fire_timer (fire_timer s s.reconnect_timeout_id) s.reconnect_timeout_id =
      fire_timer s s.reconnect_timeout_id ∧
    ∀ u ∈ reconTimers
        (schedule_rtsp_reconnect (fire_timer s s.reconnect_timeout_id)).pendingTimers,
      u.interval = 5 := by
  obtain ⟨hfind, heq⟩ := fire_recon_eq s h hr
  have hwf' : timersWf (fire_timer s s.reconnect_timeout_id) := timersWf_fire s _ h
  have hrecl : reconTimers s.pendingTimers = [⟨s.reconnect_timeout_id, .reconnect, 5⟩] := by
    rw [h.2.2.2.1, if_neg hr]
  have hnone : findTimer (fire_timer s s.reconnect_timeout_id) s.reconnect_timeout_id =
      none := by
    rw [heq]
    unfold findTimer
    dsimp only
    rw [List.find?_eq_none]
    intro x hx
    have hx2 := (List.mem_filter.mp hx).2
    simpa using hx2
  refine ⟨hfind, by rw [heq], by rw [heq], by rw [heq], ?_, by rw [heq], fire_none_eq hnone, ?_⟩
  · rw [heq]
    dsimp only
    exact reconTimers_remove_self hrecl
  · intro u hu
    rw [(schedule_spec _ hwf').2.2.2.1] at hu
    rw [List.mem_singleton.mp hu]

/-- Witness for C4 at the state reached by one SourceError: the pending
reconnect timer fires, resets the rtsp source, and leaves no reconnect
timer pending. -/
theorem C4_witness :
    timersWf erroredState ∧ erroredState.reconnect_timeout_id ≠ 0 ∧
    (fire_timer erroredState erroredState.reconnect_timeout_id).rtspSrcResetCount =
      erroredState.rtspSrcResetCount + 1 ∧
    reconTimers (fire_timer erroredState erroredState.reconnect_timeout_id).pendingTimers =
      [] :=
  ⟨by decide, by decide,
   (C4_reconnect_fires_once erroredState (by decide) (by decide)).2.1,
   (C4_reconnect_fires_once erroredState (by decide) (by decide)).2.2.2.2.1⟩

theorem schedule_fields (s : Streamer) :
    (schedule_rtsp_reconnect s).reconnect_timeout_id = s.nextTimerId ∧
    (schedule_rtsp_reconnect s).activePad = s.activePad ∧
    (schedule_rtsp_reconnect s).dummyPadStored = s.dummyPadStored ∧
    (schedule_rtsp_reconnect s).rtspPadStored = s.rtspPadStored ∧
    (schedule_rtsp_reconnect s).is_rtsp_connected = s.is_rtsp_connected ∧
    (schedule_rtsp_reconnect s).stopped = s.stopped ∧
    (schedule_rtsp_reconnect s).hasLoop = s.hasLoop ∧
    (schedule_rtsp_reconnect s).nextTimerId = s.nextTimerId + 1 ∧
    (⟨s.nextTimerId, .reconnect, 5⟩ : Timer) ∈ (schedule_rtsp_reconnect s).pendingTimers := by
  unfold schedule_rtsp_reconnect remove_source add_timeout
  split <;>
    exact ⟨rfl, rfl, rfl, rfl, rfl, rfl, rfl, rfl,
      List.mem_append_right _ (List.mem_singleton.mpr rfl)⟩

theorem chain_fields (env : ChainEnv) (s : Streamer) :
    (create_rtsp_decode_chain env s).activePad = s.activePad ∧
    (create_rtsp_decode_chain env s).is_rtsp_connected = s.is_rtsp_connected ∧
    (create_rtsp_decode_chain env s).dummyPadStored = s.dummyPadStored ∧
    (create_rtsp_decode_chain env s).stopped = s.stopped ∧
    (create_rtsp_decode_chain env s).hasLoop = s.hasLoop ∧
    (create_rtsp_decode_chain env s).reconnect_timeout_id = s.reconnect_timeout_id := by
  unfold create_rtsp_decode_chain add_timeout
  split_ifs <;> exact ⟨rfl, rfl, rfl, rfl, rfl, rfl⟩

theorem fire_recon_kind_eq (s : Streamer) {id : Nat} {t : Timer}
    (hf : findTimer s id = some t) (hk : t.kind = .reconnect) :
    fire_timer s id = remove_source id (reconnect_rtsp_source s) := by
  obtain ⟨tid, tkind, tintv⟩ := t
  simp only at hk
  subst hk
  unfold fire_timer
  rw [hf]

theorem graceTimers_remove_rid {l : List Timer} {rid : Nat}
    (hnd : (l.map Timer.id).Nodup)
    (hrecl : reconTimers l = [⟨rid, .reconnect, 5⟩]) :
    graceTimers (l.filter (fun t => t.id != rid)) = graceTimers l := by
  unfold graceTimers
  apply kindTimers_remove_of_ne
  intro t ht hid
  have htl := (mem_kindTimers.mp ht).1
  have htk := (mem_kindTimers.mp ht).2
  have hTm : (⟨rid, TimerKind.reconnect, 5⟩ : Timer) ∈ reconTimers l := by
    rw [hrecl]
    exact List.mem_singleton.mpr rfl
  have hTl := (mem_kindTimers.mp hTm).1
  have heq := id_inj hnd htl hTl hid
  rw [heq] at htk
  cases htk

theorem cleanup_spec (s : Streamer) :
    (cleanup s).reconnect_timeout_id = 0 ∧
    (cleanup s).bus_watch_id = 0 ∧
    (cleanup s).hasPipeline = false ∧
    (cleanup s).hasBus = false ∧
    (cleanup s).hasLoop = false ∧
    (cleanup s).pendingTimers =
      (if s.reconnect_timeout_id > 0 then
        s.pendingTimers.filter (fun t => t.id != s.reconnect_timeout_id)
      else s.pendingTimers) ∧
    (cleanup s).activePad = s.activePad ∧
    (cleanup s).dummyPadStored = s.dummyPadStored ∧
    (cleanup s).rtspPadStored = s.rtspPadStored ∧
    (cleanup s).is_rtsp_connected = s.is_rtsp_connected ∧
    (cleanup s).nextTimerId = s.nextTimerId ∧
    (cleanup s).rtspSrcResetCount = s.rtspSrcResetCount ∧
    (cleanup s).stopped = s.stopped ∧
    (cleanup s).rtsp_uri = s.rtsp_uri ∧
    (cleanup s).output_path = s.output_path := by
  simp only [cleanup, remove_source]
  split_ifs <;> simp_all

theorem cleanup_of_clean (s : Streamer) (h1 : s.reconnect_timeout_id = 0)
    (h2 : s.bus_watch_id = 0) (h3 : s.hasPipeline = false) (h4 : s.hasBus = false)
    (h5 : s.hasLoop = false) : cleanup s = s := by
  simp [cleanup, remove_source, h1, h2, h3, h4, h5]

/-- C1 (amended): for every bus error event, the handler fails over to
the fallback input and schedules a reconnect — without terminating — if
and only if the originating node is the `rtsp_src` element itself; an
error from any other node (including every node of the dynamically
constructed decode sub-chain) stops the whole pipeline. -/
theorem C1_error_attribution (s : Streamer) (src : MsgSrc) (hloop : s.hasLoop = true)
    (hst : s.stopped = false) (hd : s.dummyPadStored = some SPad.dummy)
    (hnx : 0 < s.nextTimerId) :
    ((handle_bus_message s (.error src)).stopped = false ↔ src = .rtspSrc) ∧
    (src = .rtspSrc →
      (handle_bus_message s (.error src)).activePad = some SPad.dummy ∧
      0 < (handle_bus_message s (.error src)).reconnect_timeout_id ∧
      (⟨(handle_bus_message s (.error src)).reconnect_timeout_id, .reconnect, 5⟩ : Timer) ∈
        (handle_bus_message s (.error src)).pendingTimers) ∧
    (src ≠ .rtspSrc →
      handle_bus_message s (.error src) = { s with stopped := true }) := by
  by_cases hs : src = .rtspSrc
  · subst hs
    have he : handle_bus_message s (.error .rtspSrc) =
        schedule_rtsp_reconnect (switch_to_dummy_source s) := rfl
    rw [he, switch_dummy_active hd]
    have hf := schedule_fields ({ s with activePad := some SPad.dummy } : Streamer)
    refine ⟨?_, fun _ => ⟨?_, ?_, ?_⟩, fun hne => absurd rfl hne⟩
    · rw [hf.2.2.2.2.2.1]
      simp [hst]
    · rw [hf.2.1]
    · rw [hf.1]
      exact hnx
    · rw [hf.1]
      exact hf.2.2.2.2.2.2.2.2
  · have he : handle_bus_message s (.error src) = stop s := by
      simp only [handle_bus_message, if_neg hs]
    have he2 : stop s = { s with stopped := true } := by
      unfold stop
      rw [if_pos hloop]
    rw [he, he2]
    refine ⟨?_, fun heq => absurd heq hs, fun _ => rfl⟩
    simp [hs]

/-- Witness for C1: at the initial state, an error from `rtsp_src` is
recoverable, and an error from the tee stops the pipeline. -/
theorem C1_error_attribution_witness :
    ((handle_bus_message initialState (.error .rtspSrc)).stopped = false ↔
      MsgSrc.rtspSrc = .rtspSrc) ∧
    handle_bus_message initialState (.error .teeElem) =
      { initialState with stopped := true } :=
  ⟨(C1_error_attribution initialState .rtspSrc rfl rfl rfl (by decide)).1,
   (C1_error_attribution initialState .teeElem rfl rfl rfl (by decide)).2.2 (by decide)⟩

/-- C1 counterexample: after the decode sub-chain has been built, an
error originating from the decoder node — which belongs to the
live-source lineage — stops the whole pipeline and schedules no
reconnect, instead of triggering failover as the claim requires. -/
theorem C1_counterexample :
    liveLineage .rtspDecode = true ∧
    (handle_bus_message chainState (.error .rtspDecode)).stopped = true ∧
    reconTimers (handle_bus_message chainState (.error .rtspDecode)).pendingTimers = [] ∧
    (handle_bus_message chainState (.error .rtspDecode)).activePad =
      chainState.activePad := by
  decide

/-- C2 (amended): the invariant "dummy pad stored, and active input is
the fallback pad whenever the live source is not connected" holds at
startup and is preserved by every bus event and timer firing except the
firing of a pending grace-delay switch-to-live timeout. -/
theorem C2_invariant_preserved :
    inv2 initialState ∧
    ∀ (s : Streamer) (e : Event), inv2 s → graceFire s e = false → inv2 (step s e) := by
  refine ⟨by decide, ?_⟩
  intro s e h hg
  obtain ⟨hd, hc⟩ := h
  cases e with
  | bus m =>
    cases m with
    | error src =>
      by_cases hs : src = .rtspSrc
      · subst hs
        have he : step s (.bus (.error .rtspSrc)) =
            schedule_rtsp_reconnect (switch_to_dummy_source s) := rfl
        rw [he, switch_dummy_active hd]
        have hf := schedule_fields ({ s with activePad := some SPad.dummy } : Streamer)
        exact ⟨hf.2.2.1.trans hd, fun _ => hf.2.1⟩
      · have he : step s (.bus (.error src)) = stop s := by
          simp only [step, handle_bus_message, if_neg hs]
        rw [he]
        unfold stop
        split
        · exact ⟨hd, hc⟩
        · exact ⟨hd, hc⟩
    | eos =>
      have he : step s (.bus .eos) = stop s := rfl
      rw [he]
      unfold stop
      split
      · exact ⟨hd, hc⟩
      · exact ⟨hd, hc⟩
    | stateChanged src oldS newS =>
      by_cases hs : src = .rtspSrc
      · by_cases hn : newS = .playing
        · have he : step s (.bus (.stateChanged src oldS newS)) =
              switch_to_rtsp_source ({ s with is_rtsp_connected := true } : Streamer) := by
            simp only [step, handle_bus_message, if_pos hs, if_pos hn]
          rw [he]
          have hsw := switch_rtsp_fields ({ s with is_rtsp_connected := true } : Streamer)
          refine ⟨hsw.2.2.2.2.1.trans hd, fun hcon => ?_⟩
          rw [hsw.2.2.2.1] at hcon
          cases hcon
        · by_cases ho : oldS = .playing ∧ newS.toNat < GstState.playing.toNat
          · have he : step s (.bus (.stateChanged src oldS newS)) =
                schedule_rtsp_reconnect (switch_to_dummy_source
                  ({ s with is_rtsp_connected := false } : Streamer)) := by
              simp only [step, handle_bus_message, if_pos hs, if_neg hn, if_pos ho]
            rw [he, switch_dummy_active
              (show ({ s with is_rtsp_connected := false } : Streamer).dummyPadStored =
                some SPad.dummy from hd)]
            have hf := schedule_fields
              ({ { s with is_rtsp_connected := false } with
                  activePad := some SPad.dummy } : Streamer)
            exact ⟨hf.2.2.1.trans hd, fun _ => hf.2.1⟩
          · have he : step s (.bus (.stateChanged src oldS newS)) = s := by
              simp only [step, handle_bus_message, if_pos hs, if_neg hn, if_neg ho]
            rw [he]
            exact ⟨hd, hc⟩
      · have he : step s (.bus (.stateChanged src oldS newS)) = s := by
          simp only [step, handle_bus_message, if_neg hs]
        rw [he]
        exact ⟨hd, hc⟩
  | padAdded info =>
    have hinv : inv2 (create_rtsp_decode_chain info.chainEnv s) := by
      have hf := chain_fields info.chainEnv s
      refine ⟨hf.2.2.1.trans hd, fun hcon => ?_⟩
      rw [hf.1]
      exact hc (by rw [← hf.2.1]; exact hcon)
    have he : step s (.padAdded info) = connect_rtsp_pad info s := rfl
    rw [he]
    unfold connect_rtsp_pad
    split_ifs <;> first | exact ⟨hd, hc⟩ | exact hinv
  | timerFire id =>
    cases hf : findTimer s id with
    | none =>
      have he : step s (.timerFire id) = s := fire_none_eq hf
      rw [he]
      exact ⟨hd, hc⟩
    | some t =>
      cases hk : t.kind with
      | reconnect =>
        have he : step s (.timerFire id) =
            remove_source id (reconnect_rtsp_source s) := fire_recon_kind_eq s hf hk
        rw [he]
        exact ⟨hd, hc⟩
      | graceSwitch =>
        exfalso
        simp only [graceFire, hf, hk] at hg
        simp at hg

/-- Witness for C2: the invariant holds after a SourceError dispatch
from the initial state. -/
theorem C2_invariant_witness : inv2 (step initialState (.bus (.error .rtspSrc))) :=
  C2_invariant_preserved.2 initialState (.bus (.error .rtspSrc)) (by decide) (by decide)

/-- C2 counterexample: build the decode chain (scheduling the
grace-delay switch), then let that timeout fire: the selector's active
input becomes the rtsp pad while the connection state is still not
Live. -/
theorem C2_counterexample :
    (run chainState [.timerFire 1]).is_rtsp_connected = false ∧
    (run chainState [.timerFire 1]).activePad = some SPad.rtsp := by
  decide

/-- C7 (amended): constructing the decode sub-chain never switches the
selector itself; it registers the one-shot 1-second grace-delay
switch-to-live timeout exactly when the elements are created, the chain
links, and `gst_element_get_state` reports SUCCESS (the running report);
and firing a grace timeout performs the switch to the live input.  (The
bus handler may still switch to live earlier, see the
counterexample.) -/
theorem C7_grace_scheduling (env : ChainEnv) (s : Streamer) :
    (create_rtsp_decode_chain env s).activePad = s.activePad ∧
    graceTimers (create_rtsp_decode_chain env s).pendingTimers =
      graceTimers s.pendingTimers ++
        (if env.elemsOk && env.chainLinkOk && env.getStateSuccess then
          [⟨s.nextTimerId, TimerKind.graceSwitch, 1⟩] else []) ∧
    (∀ (u : Streamer) (id : Nat) (t : Timer), findTimer u id = some t →
      t.kind = .graceSwitch →
      fire_timer u id = remove_source id (switch_to_rtsp_source u)) := by
  refine ⟨(chain_fields env s).1, ?_, fun u id t hf hk => fire_grace_eq u hf hk⟩
  obtain ⟨e1, e2, e3, e4, e5⟩ := env
  cases e1 <;> cases e2 <;> cases e5 <;>
    simp [create_rtsp_decode_chain, add_timeout, graceTimers, kindTimers]

/-- Witness for C7: from the initial state a successful chain
construction registers the 1-second grace timeout, and firing it
switches to the rtsp input. -/
theorem C7_grace_scheduling_witness :
    graceTimers (create_rtsp_decode_chain goodChainEnv initialState).pendingTimers =
      graceTimers initialState.pendingTimers ++ [⟨1, TimerKind.graceSwitch, 1⟩] ∧
    fire_timer chainState 1 = remove_source 1 (switch_to_rtsp_source chainState) :=
  ⟨(C7_grace_scheduling goodChainEnv initialState).2.1,
   (C7_grace_scheduling goodChainEnv initialState).2.2 chainState 1
      ⟨1, .graceSwitch, 1⟩ (by decide) rfl⟩

/-- C7 counterexample: while the grace-delay timeout is still pending
(the grace delay has not elapsed), a PLAYING state-change message from
`rtsp_src` already switches the selector to the live input — so the
switch to live is not always deferred until the grace delay has
elapsed. -/
theorem C7_counterexample :
    (run chainState [.bus (.stateChanged .rtspSrc .paused .playing)]).activePad =
      some SPad.rtsp ∧
    (graceTimers
      (run chainState [.bus (.stateChanged .rtspSrc .paused .playing)]).pendingTimers).length
      = 1 := by
  decide

/-- C8 (amended): shutdown is idempotent and safe from every state
(`stop` and `cleanup` are both idempotent); `cleanup` cancels the
recorded reconnect timer and the bus watch and releases pipeline, bus
and loop; but a pending grace-delay switch-to-live timeout — whose
source id is never stored — survives `cleanup` unchanged. -/
theorem C8_shutdown (s : Streamer) (h : timersWf s) :
    cleanup (cleanup s) = cleanup s ∧
    stop (stop s) = stop s ∧
    reconTimers (cleanup s).pendingTimers = [] ∧
    (cleanup s).reconnect_timeout_id = 0 ∧
    (cleanup s).bus_watch_id = 0 ∧
    (cleanup s).hasPipeline = false ∧
    (cleanup s).hasBus = false ∧
    (cleanup s).hasLoop = false ∧
    graceTimers (cleanup s).pendingTimers = graceTimers s.pendingTimers := by
  have hc := cleanup_spec s
  obtain ⟨hpos, hbnd, hnd, hrec, hgr⟩ := h
  refine ⟨cleanup_of_clean _ hc.1 hc.2.1 hc.2.2.1 hc.2.2.2.1 hc.2.2.2.2.1, ?_, ?_,
    hc.1, hc.2.1, hc.2.2.1, hc.2.2.2.1, hc.2.2.2.2.1, ?_⟩
  · unfold stop
    split <;> simp_all
  · rw [hc.2.2.2.2.2.1]
    by_cases hr : s.reconnect_timeout_id > 0
    · rw [if_pos hr]
      exact reconTimers_remove_self (by rw [hrec, if_neg (by omega)])
    · rw [if_neg hr]
      rw [hrec, if_pos (by omega)]
  · rw [hc.2.2.2.2.2.1]
    by_cases hr : s.reconnect_timeout_id > 0
    · rw [if_pos hr]
      exact graceTimers_remove_rid hnd (by rw [hrec, if_neg (by omega)])
    · rw [if_neg hr]

/-- Witness for C8 at the post-chain state: cleanup is idempotent and
leaves the pending grace timeout untouched. -/
theorem C8_shutdown_witness :
    cleanup (cleanup chainState) = cleanup chainState ∧
    graceTimers (cleanup chainState).pendingTimers = graceTimers chainState.pendingTimers :=
  ⟨(C8_shutdown chainState (by decide)).1,
   (C8_shutdown chainState (by decide)).2.2.2.2.2.2.2.2⟩

/-- C8 counterexample: with the grace-delay switch-to-live timeout
pending, `cleanup` leaves it pending — shutdown does not cancel every
outstanding timer. -/
theorem C8_counterexample :
    (graceTimers chainState.pendingTimers).length = 1 ∧
    (graceTimers (cleanup chainState).pendingTimers).length = 1 ∧
    findTimer (cleanup chainState) 1 = some ⟨1, .graceSwitch, 1⟩ := by
  decide

theorem create_ok_iff (p : ProfileEnv) (q : Quality) (w h b : Nat) (out : String) :
    (create_dash_pipeline p q w h b out).ok = true ↔ profileAllOk p = true := by
  unfold create_dash_pipeline profileAllOk
  split_ifs <;> simp_all

theorem dummy_ok_events (env : BuildEnv) (h : (connect_dummy_source env).1 = true) :
    (connect_dummy_source env).2 =
      [.dummyElemsCreated, .dummyChainLinked, .dummyPadLinked] := by
  unfold connect_dummy_source at h ⊢
  split_ifs at h ⊢ <;> simp_all

theorem dummy_no_profile (env : BuildEnv) (q : Quality) :
    BuildEvent.profileElemsCreated q ∉ (connect_dummy_source env).2 := by
  unfold connect_dummy_source
  split_ifs <;> simp

theorem indexOf_append_lt {α : Type} [DecidableEq α] {l1 l2 : List α} {a b : α}
    (ha : a ∈ l1) (hb : b ∉ l1) :
    List.indexOf a (l1 ++ l2) < List.indexOf b (l1 ++ l2) := by
  rw [List.indexOf_append_of_mem ha, List.indexOf_append_of_not_mem hb]
  have := List.indexOf_lt_length.mpr ha
  omega

theorem init_ok_profiles (env : BuildEnv) (out : String)
    (hok : (init_streamer env out).ok = true) :
    profileAllOk env.fullhdEnv = true ∧ profileAllOk env.hdEnv = true := by
  unfold init_streamer at hok
  split_ifs at hok with h1 h2 h3 h4 h5 h6 h7 h8 h9 <;>
    first
      | exact Bool.noConfusion hok
      | exact ⟨(create_ok_iff env.fullhdEnv .fullhd 1920 1080 5000 out).mp (by simpa using h8),
          (create_ok_iff env.hdEnv .hd 1280 720 3000 out).mp (by simpa using h9)⟩

theorem init_events_cases (env : BuildEnv) (out : String) :
    (∀ q, BuildEvent.profileElemsCreated q ∉ (init_streamer env out).events) ∨
    ∃ rest, (init_streamer env out).events =
      ([BuildEvent.pipelineCreated, .rtspSrcCreated, .dummySrcCreated, .selectorCreated,
        .teeCreated, .coreAdded] ++
        [.dummyElemsCreated, .dummyChainLinked, .dummyPadLinked] ++
        [.selectorTeeLinked]) ++ rest := by
  unfold init_streamer
  by_cases h1 : (!env.pipelineOk) = true
  · rw [if_pos h1]
    exact Or.inl (fun q => by cases q <;> decide)
  rw [if_neg h1]
  by_cases h2 : (!env.rtspSrcOk) = true
  · rw [if_pos h2]
    exact Or.inl (fun q => by cases q <;> decide)
  rw [if_neg h2]
  by_cases h3 : (!env.dummySrcOk) = true
  · rw [if_pos h3]
    exact Or.inl (fun q => by cases q <;> decide)
  rw [if_neg h3]
  by_cases h4 : (!env.selectorOk) = true
  · rw [if_pos h4]
    exact Or.inl (fun q => by cases q <;> decide)
  rw [if_neg h4]
  by_cases h5 : (!env.teeOk) = true
  · rw [if_pos h5]
    exact Or.inl (fun q => by cases q <;> decide)
  rw [if_neg h5]
  by_cases h6 : (!(connect_dummy_source env).1) = true
  · rw [if_pos h6]
    refine Or.inl (fun q hm => ?_)
    rcases List.mem_append.mp hm with hm2 | hm2
    · exact absurd hm2 (by cases q <;> decide)
    · exact absurd hm2 (dummy_no_profile env q)
  rw [if_neg h6]
  have hd1 : (connect_dummy_source env).1 = true := by simpa using h6
  by_cases h7 : (!env.selectorTeeLinkOk) = true
  · rw [if_pos h7]
    refine Or.inl (fun q hm => ?_)
    rcases List.mem_append.mp hm with hm2 | hm2
    · exact absurd hm2 (by cases q <;> decide)
    · exact absurd hm2 (dummy_no_profile env q)
  rw [if_neg h7]
  by_cases h8 : (!(create_dash_pipeline env.fullhdEnv .fullhd 1920 1080 5000 out).ok) = true
  · rw [if_pos h8]
    exact Or.inr ⟨_, by rw [dummy_ok_events env hd1]⟩
  rw [if_neg h8]
  by_cases h9 : (!(create_dash_pipeline env.hdEnv .hd 1280 720 3000 out).ok) = true
  · rw [if_pos h9]
    exact Or.inr ⟨_, by rw [dummy_ok_events env hd1]⟩
  rw [if_neg h9]
  exact Or.inr ⟨_, by rw [dummy_ok_events env hd1]⟩

/-- C5: initialization links the fallback branch into the selector and
the selector into the tee before any profile branch element is created,
and if any element creation or link of either profile branch fails, the
whole build fails: `initialize` returns false, streaming never starts,
and the process exits non-zero. -/
theorem C5_build (env : BuildEnv) (out : String) :
    ((init_streamer env out).ok = true →
      profileAllOk env.fullhdEnv = true ∧ profileAllOk env.hdEnv = true) ∧
    ((∃ q, profileAllOk (profEnvOf env q) = false) →
      (init_streamer env out).ok = false ∧ mainRun 3 env out true = (1, false)) ∧
    (∀ q, BuildEvent.profileElemsCreated q ∈ (init_streamer env out).events →
      BuildEvent.dummyPadLinked ∈ (init_streamer env out).events ∧
      BuildEvent.selectorTeeLinked ∈ (init_streamer env out).events ∧
      List.indexOf BuildEvent.dummyPadLinked (init_streamer env out).events <
        List.indexOf (BuildEvent.profileElemsCreated q) (init_streamer env out).events ∧
      List.indexOf BuildEvent.selectorTeeLinked (init_streamer env out).events <
        List.indexOf (BuildEvent.profileElemsCreated q) (init_streamer env out).events) := by
  refine ⟨init_ok_profiles env out, ?_, ?_⟩
  · rintro ⟨q, hq⟩
    have hok : (init_streamer env out).ok = false := by
      cases hb : (init_streamer env out).ok with
      | false => rfl
      | true =>
        exfalso
        have hp := init_ok_profiles env out hb
        cases q with
        | fullhd => rw [show profEnvOf env .fullhd = env.fullhdEnv from rfl, hp.1] at hq; cases hq
        | hd => rw [show profEnvOf env .hd = env.hdEnv from rfl, hp.2] at hq; cases hq
    refine ⟨hok, ?_⟩
    unfold mainRun
    rw [if_neg (by omega), hok]
    simp
  · intro q hq
    rcases init_events_cases env out with hnone | ⟨rest, he⟩
    · exact absurd hq (hnone q)
    · rw [he] at hq ⊢
      refine ⟨List.mem_append_left _ (by decide), List.mem_append_left _ (by decide),
        indexOf_append_lt (by decide) (by cases q <;> decide),
        indexOf_append_lt (by decide) (by cases q <;> decide)⟩

/-- Witness for C5: a failing hd-branch pad link makes the build fail
with exit code 1 and no streaming, and in the all-success build the
fallback-pad link and the selector-tee link precede the fullhd branch
creation. -/
theorem C5_build_witness :
    ((init_streamer badHdEnv "/tmp/dash-output").ok = false ∧
      mainRun 3 badHdEnv "/tmp/dash-output" true = (1, false)) ∧
    (BuildEvent.dummyPadLinked ∈ (init_streamer allOkEnv "/tmp/dash-output").events ∧
      BuildEvent.selectorTeeLinked ∈ (init_streamer allOkEnv "/tmp/dash-output").events ∧
      List.indexOf BuildEvent.dummyPadLinked
          (init_streamer allOkEnv "/tmp/dash-output").events <
        List.indexOf (BuildEvent.profileElemsCreated .fullhd)
          (init_streamer allOkEnv "/tmp/dash-output").events ∧
      List.indexOf BuildEvent.selectorTeeLinked
          (init_streamer allOkEnv "/tmp/dash-output").events <
        List.indexOf (BuildEvent.profileElemsCreated .fullhd)
          (init_streamer allOkEnv "/tmp/dash-output").events) :=
  ⟨(C5_build badHdEnv "/tmp/dash-output").2.1 ⟨.hd, by decide⟩,
   (C5_build allOkEnv "/tmp/dash-output").2.2 .fullhd (by decide)⟩

/-- C9: evaluation at the all-success build.  Both profile branches get
their own independent `dashsink` element, and both sinks are configured
with the same fixed manifest name "./manifest.mpd" under the same output
root — so each profile's sink writes its own single-rendition manifest
under the same name, rather than one manifest referencing both
renditions. -/
theorem C9_manifest_shared_name :
    (init_streamer allOkEnv "/var/www/html/dash").ok = true ∧
    (init_streamer allOkEnv "/var/www/html/dash").sinks =
      [dashSinkConf .fullhd "/var/www/html/dash", dashSinkConf .hd "/var/www/html/dash"] ∧
    (dashSinkConf Quality.fullhd "/var/www/html/dash").mpd_filename = "./manifest.mpd" ∧
    (dashSinkConf Quality.hd "/var/www/html/dash").mpd_filename = "./manifest.mpd" ∧
    (dashSinkConf Quality.fullhd "/var/www/html/dash").mpd_root_path = "/var/www/html/dash" ∧
    (dashSinkConf Quality.hd "/var/www/html/dash").mpd_root_path = "/var/www/html/dash" ∧
    (dashSinkConf Quality.fullhd "/var/www/html/dash").quality ≠
      (dashSinkConf Quality.hd "/var/www/html/dash").quality ∧
    ¬ ((init_streamer allOkEnv "/var/www/html/dash").sinks.map
        DashSinkConf.mpd_filename).Nodup := by
  refine ⟨rfl, rfl, rfl, rfl, rfl, rfl, by decide, by decide⟩

end RtspDash
